import Mathlib

/-!
Shallow embedding of the Terraform lifecycle manager of the
constellaXion CLI, for checking the specification claims.

The definitions below are translated from the Python sources:
  - constellaxion/terraform/core/result.py    (TerraformResult)
  - constellaxion/terraform/core/config.py    (TerraformConfig)
  - constellaxion/terraform/core/executor.py  (TerraformExecutor)
  - constellaxion/terraform/manager.py        (TerraformManager)
  - constellaxion/services/bootstrap.py       (legacy bootstrap_aws_infrastructure)

External effects (boto3/STS/S3/DynamoDB/IAM probes, the terraform
subprocess, the file system) are modelled as explicit environment
records supplying the outcome each external call would return, while
all control flow, string construction and result construction is
translated from the source.
-/

/-! ## Data model: TerraformResult (terraform/core/result.py) -/

/-- A single resource entry, the projection of one of the `dict` entries
the manager appends to `resources` lists. -/
abbrev ResourceEntry := List (String × String)

/-- Projection of the open `data` dict of `TerraformResult`: the four keys
the repository ever writes or reads. -/
structure TFData where
  backend_config : Option (List (String × String)) := none
  resources : Option (List ResourceEntry) := none
  destroyed_resources : Option (List String) := none
  outputs : Option (List (String × String)) := none
deriving DecidableEq, Repr

def emptyTFData : TFData := {}

/-- `TerraformResult` dataclass. The `data` field is `Option` because the
dataclass field is `Optional[Dict]`; `__post_init__` (see
`mkTerraformResult`) replaces `None` by an empty dict. -/
structure TerraformResult where
  success : Bool
  message : String
  stdout : String := ""
  stderr : String := ""
  returncode : Int := 0
  data : Option TFData := none
  error : Option String := none
deriving DecidableEq, Repr

/-- Constructing a `TerraformResult` in Python always runs
`__post_init__`, which replaces `data=None` with `{}`. -/
def mkTerraformResult (success : Bool) (message : String)
    (stdout : String := "") (stderr : String := "") (returncode : Int := 0)
    (data : Option TFData := none) (error : Option String := none) :
    TerraformResult :=
  { success := success, message := message, stdout := stdout,
    stderr := stderr, returncode := returncode,
    data := some (data.getD emptyTFData), error := error }

/-- `get_resources`: `self.data.get("resources", [])`; if `data` were
`None` the attribute access would raise, modelled as `.error`. -/
def TerraformResult.getResources (r : TerraformResult) :
    Except String (List ResourceEntry) :=
  match r.data with
  | none => .error ("AttributeError: NoneType has no attribute get")
  | some d => .ok (d.resources.getD [])

/-- `get_destroyed_resources`: `self.data.get("destroyed_resources", [])`. -/
def TerraformResult.getDestroyedResources (r : TerraformResult) :
    Except String (List String) :=
  match r.data with
  | none => .error ("AttributeError: NoneType has no attribute get")
  | some d => .ok (d.destroyed_resources.getD [])

/-! ## Data model: TerraformConfig (terraform/core/config.py) -/

/-- `CloudProvider` enum. -/
inductive CloudProvider where
  | aws
  | gcp
deriving DecidableEq, Repr

/-- `.value` of the enum members. -/
def CloudProvider.value : CloudProvider → String
  | .aws => "aws"
  | .gcp => "gcp"

structure TerraformConfig where
  provider : CloudProvider
  region : String
  profile : Option String := none
  project_id : Option String := none
  workspace_dir : Option String := none
deriving DecidableEq, Repr

/-- Python truthiness of an `Optional[str]`: `None` and `""` are falsy. -/
def optTruthy : Option String → Bool
  | none => false
  | some s => s ≠ ""

/-- Projection of the dict produced by `TerraformConfig.to_dict` /
consumed by `from_dict`: each key is present (`some`) or absent. -/
structure ConfigDict where
  provider : Option String := none
  region : Option String := none
  profile : Option String := none
  project_id : Option String := none
  workspace_dir : Option String := none
deriving DecidableEq, Repr

/-- `TerraformConfig.to_dict`: always stores provider and region; stores
each optional field only when truthy (`if self.profile: ...`). -/
def TerraformConfig.toDict (c : TerraformConfig) : ConfigDict :=
  { provider := some c.provider.value,
    region := some c.region,
    profile := if optTruthy c.profile then c.profile else none,
    project_id := if optTruthy c.project_id then c.project_id else none,
    workspace_dir := if optTruthy c.workspace_dir then c.workspace_dir else none }

/-- `TerraformConfig.from_dict`: `data["region"]` raises `KeyError` when
absent (`none`); `provider` defaults to `"aws"`, and any string other
than `"aws"` maps to GCP. -/
def TerraformConfig.fromDict (d : ConfigDict) : Option TerraformConfig :=
  match d.region with
  | none => none
  | some region =>
    let providerStr := d.provider.getD ("aws")
    let provider : CloudProvider := if providerStr = "aws" then .aws else .gcp
    some { provider := provider, region := region, profile := d.profile,
           project_id := d.project_id, workspace_dir := d.workspace_dir }

/-! ## CommandExecutor (terraform/core/executor.py) -/

/-- The shell metacharacters rejected by `_validate_command` and
`_validate_env_vars`, in source order:
`; & | > < ` $ ( ) { } [ ] \ " '` (backtick, dollar, braces, backslash
and quotes written by code point). -/
def shellMetachars : List Char :=
  [';', '&', '|', '>', '<', Char.ofNat 96, Char.ofNat 36, '(', ')',
   Char.ofNat 123, Char.ofNat 125, '[', ']', Char.ofNat 92,
   Char.ofNat 34, Char.ofNat 39]

/-- `str.strip()`: drop leading and trailing whitespace.  (Implemented
over the character list so that it evaluates by kernel reduction.) -/
def pyStrip (s : String) : String :=
  ⟨((s.data.dropWhile Char.isWhitespace).reverse.dropWhile
      Char.isWhitespace).reverse⟩

/-- `any(char in arg for char in [...])`. -/
def containsMeta (s : String) : Bool :=
  s.data.any (fun c => shellMetachars.contains c)

/-- The fixed allow-list of terraform subcommands. -/
def validCommands : List String :=
  ["init", "apply", "destroy", "refresh", "output", "state", "plan",
   "validate", "workspace", "import", "taint", "untaint", "force-unlock",
   "console"]

def invalidCommandMsg (c : String) : String :=
  "Invalid terraform command: " ++ c ++ ". Allowed commands: " ++
    String.intercalate (", ") validCommands

def metacharMsg (a : String) : String :=
  "Command argument contains invalid characters: " ++ a

/-- First element of the command list containing a shell metacharacter,
in the order of the `for arg in command` loop. -/
def findMetaArg : List String → Option String
  | [] => none
  | a :: rest => if containsMeta a then some a else findMetaArg rest

/-- `TerraformExecutor._validate_command`: reject a first element outside
the allow-list, then reject the first argument holding a shell
metacharacter.  (The empty list skips the subcommand check, exactly as
`if command and command[0] not in valid_commands`.) -/
def validateCommand (command : List String) : Except String Unit :=
  let headCheck : Except String Unit :=
    match command with
    | [] => .ok ()
    | c :: _ =>
      if validCommands.contains c then .ok () else .error (invalidCommandMsg c)
  match headCheck with
  | .error m => .error m
  | .ok _ =>
    match findMetaArg command with
    | some a => .error (metacharMsg a)
    | none => .ok ()

/-- Exceptions `execute` can raise before spawning. -/
inductive ExecError where
  | valueError (msg : String)
  | fileNotFoundError (msg : String)
deriving DecidableEq, Repr

/-- State of the working directory after `Path.resolve()`, as observed by
`_validate_working_dir`. -/
structure WorkingDir where
  resolvedPath : String
  isSymlink : Bool := false
  dirExists : Bool := true
  isDir : Bool := true
deriving DecidableEq, Repr

/-- `".." in str(working_dir)`. -/
def hasDotDotChars : List Char → Bool
  | [] => false
  | '.' :: '.' :: _ => true
  | _ :: rest => hasDotDotChars rest

def containsDotDot (s : String) : Bool :=
  hasDotDotChars s.data

/-- `TerraformExecutor._validate_working_dir`. -/
def validateWorkingDir (wd : WorkingDir) : Except ExecError Unit :=
  if containsDotDot wd.resolvedPath || wd.isSymlink then
    .error (.valueError ("Invalid working directory path: " ++ wd.resolvedPath))
  else if !wd.dirExists then
    .error (.fileNotFoundError ("Working directory does not exist: " ++ wd.resolvedPath))
  else if !wd.isDir then
    .error (.valueError ("Working directory is not a directory: " ++ wd.resolvedPath))
  else .ok ()

/-- First environment entry whose key (`true`) or value (`false`) holds a
shell metacharacter, in iteration order. -/
def findBadEnvVar : List (String × String) → Option (Bool × String)
  | [] => none
  | (k, v) :: rest =>
    if containsMeta k then some (true, k)
    else if containsMeta v then some (false, v)
    else findBadEnvVar rest

/-- `TerraformExecutor._validate_env_vars`. -/
def validateEnvVars (envVars : List (String × String)) : Except String Unit :=
  match findBadEnvVar envVars with
  | some (true, k) =>
    .error ("Environment variable key contains invalid characters: " ++ k)
  | some (false, v) =>
    .error ("Environment variable value contains invalid characters: " ++ v)
  | none => .ok ()

/-- Behaviour of the spawned terraform process, supplied by the
environment: the subprocess call may raise, time out (captured mode
only), or finish with an exit code and output. -/
structure SpawnBehavior where
  raisesMsg : Option String := none
  timesOut : Bool := false
  returncode : Int := 0
  stdoutCaptured : String := ""
  stderrCaptured : String := ""
  streamedStdout : String := ""
deriving DecidableEq, Repr

/-- `TerraformExecutor._execute_with_capture`. -/
def executeWithCapture (p : SpawnBehavior) : TerraformResult :=
  match p.raisesMsg with
  | some e =>
    mkTerraformResult false ("Execution failed") ""
      ("Failed to execute terraform: " ++ e) (-1)
  | none =>
    if p.timesOut then
      mkTerraformResult false ("Command timed out") ""
        ("Command timed out after 30 minutes") (-1)
    else
      mkTerraformResult (p.returncode == 0) ("Command executed")
        p.stdoutCaptured p.stderrCaptured p.returncode

/-- `TerraformExecutor._execute_with_streaming`: stderr is folded into
stdout and the buffered lines are returned. -/
def executeWithStreaming (p : SpawnBehavior) : TerraformResult :=
  match p.raisesMsg with
  | some e =>
    mkTerraformResult false ("Execution failed") ""
      ("Failed to execute terraform: " ++ e) (-1)
  | none =>
    mkTerraformResult (p.returncode == 0) ("Command executed")
      p.streamedStdout ("") p.returncode

/-- Observable outcome of one `execute` call: whether a subprocess was
spawned, and the returned result or raised exception. -/
structure ExecTrace where
  spawned : Bool
  outcome : Except ExecError TerraformResult
deriving Repr

/-- `TerraformExecutor.execute`: validate the working directory, the
command and the environment variables — in that order — before any
process spawn; then run in captured or streaming mode. -/
def executorExecute (wd : WorkingDir) (command : List String)
    (envVars : List (String × String)) (captureOutput : Bool)
    (proc : SpawnBehavior) : ExecTrace :=
  match validateWorkingDir wd with
  | .error e => ⟨false, .error e⟩
  | .ok _ =>
    match validateCommand command with
    | .error m => ⟨false, .error (.valueError m)⟩
    | .ok _ =>
      match validateEnvVars envVars with
      | .error m => ⟨false, .error (.valueError m)⟩
      | .ok _ =>
        ⟨true, .ok (if captureOutput then executeWithCapture proc
                    else executeWithStreaming proc)⟩

/-! ## WorkspaceManager (terraform/manager.py) -/

/-- Projection of a backend-config `dict`: the four keys
`_generate_backend_tf` reads, each present (`some`) or absent, plus a
flag recording whether the dict holds any further keys (which in Python
only affects the dict's truthiness). -/
structure BackendDict where
  bucket : Option String := none
  key : Option String := none
  region : Option String := none
  dynamodb_table : Option String := none
  hasOtherKeys : Bool := false
deriving DecidableEq, Repr

/-- Python truthiness of the dict: `not backend_config` holds exactly
when the dict is empty. -/
def BackendDict.isEmptyDict (d : BackendDict) : Bool :=
  d.bucket.isNone && d.key.isNone && d.region.isNone &&
    d.dynamodb_table.isNone && !d.hasOtherKeys

/-- `TerraformManager._generate_backend_tf`: requires `bucket` and
`region`; `key` defaults to `"terraform.tfstate"`; the
`dynamodb_table` line is emitted only when the value is truthy.
Raises `ValueError` (`.error`) otherwise. -/
def generateBackendTf (cfg : BackendDict) : Except String String :=
  match cfg.bucket, cfg.region with
  | some bucket, some region =>
    let key := cfg.key.getD ("terraform.tfstate")
    let base :=
      "terraform \x7b\n  backend \x22s3\x22 \x7b\n    bucket = \x22" ++ bucket ++
      "\x22\n    key    = \x22" ++ key ++ "\x22\n    region = \x22" ++ region ++ "\x22\n"
    let withTable :=
      match cfg.dynamodb_table with
      | some t => if t = "" then base else base ++ "    dynamodb_table = \x22" ++ t ++ "\x22\n"
      | none => base
    .ok (withTable ++ "  \x7d\n\x7d\n")
  | _, _ => .error ("Unsupported backend config")

/-- Observable state of one layer workspace directory. -/
structure Workspace where
  wsExists : Bool
  hasDotTerraform : Bool
  tfFileCount : Nat
  backendFile : Option String
  backendFileReadFails : Bool := false
deriving DecidableEq, Repr

/-- `TerraformManager._workspace_exists_and_valid`: directory present,
`.terraform` cache present, at least one `*.tf` file. -/
def workspaceExistsAndValid (ws : Workspace) : Bool :=
  if !ws.wsExists then false
  else if !ws.hasDotTerraform then false
  else if ws.tfFileCount == 0 then false
  else true

/-- `TerraformManager._backend_config_changed`.  With no (or an empty)
expected config, changed iff a generated backend file exists.  With an
expected config: changed when the file is absent, when reading it or
regenerating the expected content raises, or when the two contents
differ after `str.strip()` (modelled by `String.trim`). -/
def backendConfigChanged (ws : Workspace) (cfg : Option BackendDict) : Bool :=
  match cfg with
  | none => ws.backendFile.isSome
  | some d =>
    if d.isEmptyDict then ws.backendFile.isSome
    else
      match ws.backendFile with
      | none => true
      | some content =>
        if ws.backendFileReadFails then true
        else
          match generateBackendTf d with
          | .error _ => true
          | .ok expected => pyStrip content ≠ pyStrip expected

/-- `TerraformManager._terraform_files_stale`: a stub, always `False`. -/
def terraformFilesStale (_ws : Workspace) : Bool := false

/-- `TerraformManager._needs_full_initialization`. -/
def needsFullInitialization (ws : Workspace) (cfg : Option BackendDict) : Bool :=
  if !workspaceExistsAndValid ws then true
  else if backendConfigChanged ws cfg then true
  else if terraformFilesStale ws then true
  else false

/-! ## Layers, orchestrator events -/

/-- `TerraformLayer` enum (terraform/core/enums.py). -/
inductive TfLayer where
  | awsBackend
  | awsIam
deriving DecidableEq, Repr

def TfLayer.value : TfLayer → String
  | .awsBackend => "basic/00-backend"
  | .awsIam => "basic/01-iam"

/-- Externally visible actions taken by the orchestration code, in the
order they are issued. -/
inductive TfEvent where
  | initLayer (layer : TfLayer)
  | applyLayer (layer : TfLayer)
  | destroyLayer (layer : TfLayer)
  | resourceImport (address : String) (rid : String)
  | checkRole (name : String)
  | cleanupWorkspaces
deriving DecidableEq, Repr

def TfEvent.isResourceImport : TfEvent → Bool
  | .resourceImport _ _ => true
  | _ => false

/-! ## Layer operations: apply_layer / destroy_layer (terraform/manager.py) -/

/-- Outcome of one internal call that either returns a value or raises. -/
inductive ExecCallOutcome where
  | returns (r : TerraformResult)
  | raised (msg : String)
deriving DecidableEq, Repr

/-- Environment of one `apply_layer` call: the outcome of workspace
preparation, of the `apply` and `output -json` executor calls, and of
`json.loads` on the output's stdout (`none` = `JSONDecodeError`). -/
structure ApplyEnv where
  layer : TfLayer
  prepRaises : Option String := none
  applyCall : ExecCallOutcome
  outputCall : ExecCallOutcome
  outputParsed : Option (List (String × String)) := none
deriving Repr

/-- Observable state when an `apply_layer` / `destroy_layer` call ends:
its return value or raised exception, whether the transient
`terraform.tfvars.json` was written, and whether it exists afterwards. -/
structure LayerCallState where
  outcome : Except String TerraformResult
  varsWritten : Bool
  varsExistsAfter : Bool
deriving Repr

/-- `TerraformManager.apply_layer`.  The variables file is written after
workspace preparation; the `try/finally` deletes it regardless of the
outcome of the terraform calls.  A failed `output -json` or an
unparseable output JSON leaves `outputs` as the empty map. -/
def applyLayerRun (env : ApplyEnv) (varsExistedBefore : Bool) : LayerCallState :=
  match env.prepRaises with
  | some m => ⟨.error m, false, varsExistedBefore⟩
  | none =>
    let finishWith : Except String TerraformResult → LayerCallState :=
      fun o => ⟨o, true, false⟩
    match env.applyCall with
    | .raised m => finishWith (.error m)
    | .returns applyResult =>
      if !applyResult.success then
        finishWith (.ok (mkTerraformResult false ("Failed to apply") ""
          applyResult.stderr))
      else
        match env.outputCall with
        | .raised m => finishWith (.error m)
        | .returns outputResult =>
          let outputs : List (String × String) :=
            if outputResult.success ∧ pyStrip outputResult.stdout ≠ "" then
              match env.outputParsed with
              | some parsed => parsed
              | none => []
            else []
          finishWith (.ok (mkTerraformResult true
            ("Successfully applied " ++ env.layer.value) "" "" 0
            (some { outputs := some outputs })))

/-- `str.split('\n')` over the character list. -/
def splitOnNewline : List Char → List Char → List (List Char)
  | [], acc => [acc.reverse]
  | c :: rest, acc =>
    if c = '\n' then acc.reverse :: splitOnNewline rest []
    else splitOnNewline rest (c :: acc)

/-- `[line.strip() for line in stdout.strip().split('\n') if line.strip()]`. -/
def stateListLines (stdout : String) : List String :=
  (((splitOnNewline (pyStrip stdout).data []).map
      (fun cs => pyStrip ⟨cs⟩)).filter (fun l => l ≠ ""))

/-- Environment of one `destroy_layer` call. -/
structure DestroyLayerCallEnv where
  layer : TfLayer
  prepRaises : Option String := none
  stateListCall : ExecCallOutcome
  destroyCall : ExecCallOutcome
deriving Repr

/-- `TerraformManager.destroy_layer`: capture `state list` before the
destroy, then destroy; the `try/finally` deletes the variables file
regardless of the outcome. -/
def destroyLayerRun (env : DestroyLayerCallEnv) (varsExistedBefore : Bool) :
    LayerCallState :=
  match env.prepRaises with
  | some m => ⟨.error m, false, varsExistedBefore⟩
  | none =>
    let finishWith : Except String TerraformResult → LayerCallState :=
      fun o => ⟨o, true, false⟩
    match env.stateListCall with
    | .raised m => finishWith (.error m)
    | .returns stateResult =>
      let resources : List String :=
        if stateResult.success ∧ pyStrip stateResult.stdout ≠ "" then
          stateListLines stateResult.stdout
        else []
      match env.destroyCall with
      | .raised m => finishWith (.error m)
      | .returns destroyResult =>
        if !destroyResult.success then
          finishWith (.ok (mkTerraformResult false ("Failed to destroy") ""
            destroyResult.stderr))
        else
          finishWith (.ok (mkTerraformResult true
            ("Successfully destroyed " ++ env.layer.value) "" "" 0
            (some { destroyed_resources := some resources })))

/-! ## InfrastructureOrchestrator: _bootstrap_aws / _destroy_aws
(terraform/manager.py) -/

/-- Outcome of one layer destroy as `destroy_layer` can produce it:
a failure result, a success result carrying the pre-captured resource
addresses, or a raised exception. -/
inductive DestroyLayerOutcome where
  | failed (stderr : String)
  | succeeded (resources : List String)
  | raised (msg : String)
deriving DecidableEq, Repr

def DestroyLayerOutcome.isSucceeded : DestroyLayerOutcome → Bool
  | .succeeded _ => true
  | _ => false

def DestroyLayerOutcome.isRaised : DestroyLayerOutcome → Bool
  | .raised _ => true
  | _ => false

/-- Resource addresses a layer destroy reported, empty unless it
succeeded. -/
def DestroyLayerOutcome.reported : DestroyLayerOutcome → List String
  | .succeeded rs => rs
  | _ => []

/-- The `TerraformResult` value `destroy_layer` returns for a
non-raising outcome (its two return statements). -/
def destroyLayerResult (layer : TfLayer) : DestroyLayerOutcome →
    Option TerraformResult
  | .failed stderr => some (mkTerraformResult false ("Failed to destroy") "" stderr)
  | .succeeded rs => some (mkTerraformResult true
      ("Successfully destroyed " ++ layer.value) "" "" 0
      (some { destroyed_resources := some rs }))
  | .raised _ => none

/-- Environment of one `_bootstrap_aws` run: identity resolution, the
live-state probes, and the outcomes of the two `apply_layer` calls. -/
structure BootstrapEnv where
  region : String
  accountId : String
  sessionRaises : Option String := none
  bucketExists : Bool := true
  tableExists : Bool := true
  roleExists : Bool := false
  backendApply : ExecCallOutcome
  iamApply : ExecCallOutcome
deriving Repr

/-- The derived backend configuration of `_bootstrap_aws`. -/
def derivedBackendConfig (accountId region : String) : BackendDict :=
  let bucketName := "constellaxion-tf-state-" ++ accountId ++ "-" ++ region
  { bucket := some bucketName, region := some region,
    dynamodb_table := some (bucketName ++ "-locks") }

def backendDictEntries (d : BackendDict) : List (String × String) :=
  (match d.bucket with | some b => [("bucket", b)] | none => []) ++
  (match d.key with | some k => [("key", k)] | none => []) ++
  (match d.region with | some r => [("region", r)] | none => []) ++
  (match d.dynamodb_table with | some t => [("dynamodb_table", t)] | none => [])

/-- `TerraformManager._aws_backend_exists`: `head_bucket` then
`describe_table`; any `ClientError` (either probe failing) yields
`False`. -/
def awsBackendExists (env : BootstrapEnv) : Bool :=
  env.bucketExists && env.tableExists

/-- `TerraformManager._import_existing_iam_role`: probes `get_role` for
the fixed role name and logs; it issues no terraform command and
swallows every exception. -/
def importExistingIamRole (_env : BootstrapEnv) : List TfEvent :=
  [TfEvent.checkRole ("constellaxion-admin")]

/-- `TerraformManager._bootstrap_aws`: resolve identity, derive the
backend names, probe live state, apply the `backend` layer only when
the probe fails, run the role check, then apply the `iam` layer
unconditionally; any exception is caught into a failure result. -/
def bootstrapAws (env : BootstrapEnv) : TerraformResult × List TfEvent :=
  match env.sessionRaises with
  | some e =>
    (mkTerraformResult false ("Bootstrap failed: " ++ e) "" "" 0 none (some e), [])
  | none =>
    let backendConfig := derivedBackendConfig env.accountId env.region
    let proceedIam : List TfEvent → TerraformResult × List TfEvent :=
      fun evs =>
        let evs := evs ++ importExistingIamRole env
        match env.iamApply with
        | .raised m =>
          (mkTerraformResult false ("Bootstrap failed: " ++ m) "" "" 0 none (some m),
           evs ++ [.applyLayer .awsIam])
        | .returns r =>
          if r.success then
            (mkTerraformResult true ("AWS infrastructure bootstrapped successfully")
              "" "" 0 (some { backend_config := some (backendDictEntries backendConfig) }),
             evs ++ [.applyLayer .awsIam])
          else (r, evs ++ [.applyLayer .awsIam])
    if awsBackendExists env then proceedIam []
    else
      match env.backendApply with
      | .raised m =>
        (mkTerraformResult false ("Bootstrap failed: " ++ m) "" "" 0 none (some m),
         [.applyLayer .awsBackend])
      | .returns r =>
        if r.success then proceedIam [.applyLayer .awsBackend]
        else (r, [.applyLayer .awsBackend])

/-- Environment of one `_destroy_aws` run. -/
structure DestroyEnv where
  region : String
  accountId : String
  sessionRaises : Option String := none
  iamDestroy : DestroyLayerOutcome
  backendDestroy : DestroyLayerOutcome
deriving DecidableEq, Repr

/-- The success result of `_destroy_aws`:
`TerraformResult(True, ...)` then `result.data["destroyed_resources"] = ...`. -/
def destroyAwsSuccessResult (destroyed : List String) : TerraformResult :=
  mkTerraformResult true ("AWS infrastructure destroyed successfully") "" "" 0
    (some { destroyed_resources := some destroyed })

/-- `TerraformManager._destroy_aws`: destroy the `iam` layer inside its
own `try/except` (failure or exception is logged and skipped), then
destroy the `backend` layer; each layer's addresses are aggregated
only when that layer's destroy succeeded; a backend-destroy failure
result is silently ignored; only a raised exception produces a
failure result.  Workspace cleanup runs after the backend destroy. -/
def destroyAws (env : DestroyEnv) : TerraformResult × List TfEvent :=
  match env.sessionRaises with
  | some e =>
    (mkTerraformResult false ("Destroy failed: " ++ e) "" "" 0 none (some e), [])
  | none =>
    let iamEvents := [TfEvent.destroyLayer .awsIam]
    let iamDestroyed := env.iamDestroy.reported
    match env.backendDestroy with
    | .raised e =>
      (mkTerraformResult false ("Destroy failed: " ++ e) "" "" 0 none (some e),
       iamEvents ++ [.destroyLayer .awsBackend])
    | .failed _ =>
      (destroyAwsSuccessResult iamDestroyed,
       iamEvents ++ [.destroyLayer .awsBackend, .cleanupWorkspaces])
    | .succeeded rs =>
      (destroyAwsSuccessResult (iamDestroyed ++ rs),
       iamEvents ++ [.destroyLayer .awsBackend, .cleanupWorkspaces])

/-! ## Legacy bootstrap (services/bootstrap.py) -/

/-- Environment of one `bootstrap_aws_infrastructure` run (the
non-raising path): probes of the bucket, lock table and IAM role, and
the `iam` layer's state listing. -/
structure LegacyBootstrapEnv where
  region : String
  accountId : String
  bucketExists : Bool
  tableExists : Bool
  roleExistsInAws : Bool
  iamState : List String
deriving DecidableEq, Repr

/-- Actions issued by `bootstrap_aws_infrastructure` on its non-raising
path: the `backend` layer is built and applied only when a probe
fails; the `iam` layer is always initialized; the role is imported by
its address exactly when it exists in AWS but its address is absent
from `iam_layer.list_state()`; the `iam` apply always follows. -/
def legacyBootstrapEvents (env : LegacyBootstrapEnv) : List TfEvent :=
  let backendEvents :=
    if !env.bucketExists || !env.tableExists then
      [TfEvent.initLayer .awsBackend, TfEvent.applyLayer .awsBackend]
    else []
  let roleInState := env.iamState.contains ("aws_iam_role.constellaxion_admin")
  let importEvents :=
    if env.roleExistsInAws && !roleInState then
      [TfEvent.resourceImport ("aws_iam_role.constellaxion_admin")
        ("constellaxion-admin")]
    else []
  backendEvents ++ [TfEvent.initLayer .awsIam] ++ importEvents ++
    [TfEvent.applyLayer .awsIam]

/-! ## Concrete instances used by the statements below -/

/-- Backend config with `bucket` and `region` (the defaulted `key`). -/
def exCfg : BackendDict := { bucket := some ("bucket-a"), region := some ("us-east-1") }

/-- The content `_generate_backend_tf` produces for `exCfg`. -/
def exExpected : String :=
  "terraform \x7b\n  backend \x22s3\x22 \x7b\n    bucket = \x22bucket-a\x22\n    key    = \x22terraform.tfstate\x22\n    region = \x22us-east-1\x22\n  \x7d\n\x7d\n"

/-- A valid workspace whose backend file carries an extra trailing
newline relative to the freshly generated content. -/
def exWsTrailing : Workspace :=
  { wsExists := true, hasDotTerraform := true, tfFileCount := 1,
    backendFile := some (exExpected ++ "\n") }

/-- A valid workspace whose backend file equals the generated content. -/
def exWsMatching : Workspace :=
  { wsExists := true, hasDotTerraform := true, tfFileCount := 1,
    backendFile := some exExpected }

/-- Config with every field set, but `profile` set to the empty string. -/
def exConfigEmptyProfile : TerraformConfig :=
  { provider := .aws, region := "us-east-1", profile := some (""),
    project_id := some ("proj"), workspace_dir := some ("/ws") }

/-- Destroy environment where the `iam` layer destroy succeeds and the
`backend` layer destroy reports failure without raising. -/
def exDestroyBackendFails : DestroyEnv :=
  { region := "us-east-1", accountId := "123456789012",
    iamDestroy := .succeeded ["aws_iam_role.constellaxion_admin"],
    backendDestroy := .failed ("Error: deleting S3 bucket") }

/-- Bootstrap environment of `_bootstrap_aws` where the backend already
exists and the IAM role exists in the cloud. -/
def exBootstrapRoleExists : BootstrapEnv :=
  { region := "us-east-1", accountId := "123456789012",
    bucketExists := true, tableExists := true, roleExists := true,
    backendApply := .returns (mkTerraformResult true ("applied")),
    iamApply := .returns (mkTerraformResult true ("applied")) }

/-- The same scenario for the legacy `bootstrap_aws_infrastructure`: the
role exists in AWS and the `iam` state holds no resources. -/
def exLegacyRoleExists : LegacyBootstrapEnv :=
  { region := "us-east-1", accountId := "123456789012",
    bucketExists := true, tableExists := true, roleExistsInAws := true,
    iamState := [] }

/-! ## Theorems -/

theorem findMetaArg_of_exists {l : List String}
    (h : ∃ a ∈ l, containsMeta a = true) :
    ∃ b, findMetaArg l = some b ∧ b ∈ l ∧ containsMeta b = true := by
  induction l with
  | nil => rcases h with ⟨a, ha, _⟩; cases ha
  | cons x xs ih =>
    by_cases hx : containsMeta x = true
    · exact ⟨x, by simp [findMetaArg, hx], List.mem_cons_self x xs, hx⟩
    · rcases h with ⟨a, ha, hma⟩
      rcases List.mem_cons.mp ha with rfl | ha'
      · exact absurd hma hx
      · rcases ih ⟨a, ha', hma⟩ with ⟨b, hfb, hbmem, hbm⟩
        refine ⟨b, ?_, List.mem_cons_of_mem _ hbmem, hbm⟩
        simpa [findMetaArg, hx] using hfb

theorem validateCommand_error_of_bad {command : List String}
    (hbad : (∃ c rest, command = c :: rest ∧ validCommands.contains c = false) ∨
            (∃ a ∈ command, containsMeta a = true)) :
    ∃ m, validateCommand command = .error m ∧
      ((∃ c rest, command = c :: rest ∧ validCommands.contains c = false ∧
          m = invalidCommandMsg c) ∨
       (∃ a ∈ command, containsMeta a = true ∧ m = metacharMsg a)) := by
  cases command with
  | nil =>
    rcases hbad with ⟨c, rest, hceq, _⟩ | ⟨a, ha, _⟩
    · cases hceq
    · cases ha
  | cons c rest =>
    by_cases hc : c ∈ validCommands
    · have hmeta : ∃ a ∈ c :: rest, containsMeta a = true := by
        rcases hbad with ⟨c', rest', hceq, hc'⟩ | hm
        · cases hceq
          exact absurd hc (by simpa using hc')
        · exact hm
      rcases findMetaArg_of_exists hmeta with ⟨b, hfb, hbmem, hbm⟩
      refine ⟨metacharMsg b, ?_, Or.inr ⟨b, hbmem, hbm, rfl⟩⟩
      simp [validateCommand, hc, hfb]
    · have hc' : validCommands.contains c = false := by
        simpa using hc
      refine ⟨invalidCommandMsg c, ?_, Or.inl ⟨c, rest, rfl, hc', rfl⟩⟩
      simp [validateCommand, hc]

/-- C3: a command list whose first element is outside the allow-list, or
any of whose elements holds a shell metacharacter, is rejected by
`execute` with a `ValueError` naming the offending element, and no
subprocess is spawned — given the working-directory validation (which
runs first) passes. -/
theorem execute_rejects_invalid_commands
    (wd : WorkingDir) (command : List String)
    (envVars : List (String × String)) (captureOutput : Bool)
    (proc : SpawnBehavior)
    (hwd : validateWorkingDir wd = .ok ())
    (hbad : (∃ c rest, command = c :: rest ∧ validCommands.contains c = false) ∨
            (∃ a ∈ command, containsMeta a = true)) :
    (executorExecute wd command envVars captureOutput proc).spawned = false ∧
    ∃ m, (executorExecute wd command envVars captureOutput proc).outcome =
        .error (.valueError m) ∧
      ((∃ c rest, command = c :: rest ∧ validCommands.contains c = false ∧
          m = invalidCommandMsg c) ∨
       (∃ a ∈ command, containsMeta a = true ∧ m = metacharMsg a)) := by
  rcases validateCommand_error_of_bad hbad with ⟨m, herr, hnames⟩
  refine ⟨?_, m, ?_, hnames⟩ <;>
    simp [executorExecute, hwd, herr]

/-- C3 witness: `execute` given the subcommand `"apply; rm -rf /"` (with
a valid working directory) spawns nothing and raises the validation
error naming that subcommand. -/
theorem execute_rejects_invalid_commands_witness :
    validateWorkingDir ⟨"/ws", false, true, true⟩ = .ok () ∧
    validCommands.contains ("apply; rm -rf /") = false ∧
    ((executorExecute ⟨"/ws", false, true, true⟩ ["apply; rm -rf /"] [] false
        {}).spawned = false ∧
     ∃ m, (executorExecute ⟨"/ws", false, true, true⟩ ["apply; rm -rf /"] [] false
        {}).outcome = .error (.valueError m) ∧
      ((∃ c rest, ["apply; rm -rf /"] = c :: rest ∧
          validCommands.contains c = false ∧ m = invalidCommandMsg c) ∨
       (∃ a ∈ ["apply; rm -rf /"], containsMeta a = true ∧ m = metacharMsg a))) :=
  ⟨rfl, by decide,
   execute_rejects_invalid_commands ⟨"/ws", false, true, true⟩
     ["apply; rm -rf /"] [] false {} rfl
     (Or.inl ⟨"apply; rm -rf /", [], rfl, by decide⟩)⟩

/-- C9 counterexample: with every field set but `profile` set to the
empty string (falsy in Python), `to_dict` omits the profile key and
`from_dict` reads it back as `None`, so the round-trip does not
reproduce the original config. -/
theorem config_roundtrip_counterexample :
    exConfigEmptyProfile.profile = some ("") ∧
    exConfigEmptyProfile.project_id.isSome = true ∧
    exConfigEmptyProfile.workspace_dir.isSome = true ∧
    TerraformConfig.fromDict (TerraformConfig.toDict exConfigEmptyProfile) =
      some { provider := .aws, region := "us-east-1", profile := none,
             project_id := some ("proj"), workspace_dir := some ("/ws") } ∧
    TerraformConfig.fromDict (TerraformConfig.toDict exConfigEmptyProfile) ≠
      some exConfigEmptyProfile := by
  refine ⟨rfl, rfl, rfl, rfl, ?_⟩
  decide

/-- C9 (amended): for every config whose optional fields are each set to
a non-empty string, `to_dict` followed by `from_dict` reproduces a
config equal to the original in all fields. -/
theorem config_roundtrip_truthy_fields
    (provider : CloudProvider) (region p pj wd : String)
    (hp : p ≠ "") (hpj : pj ≠ "") (hwd : wd ≠ "") :
    TerraformConfig.fromDict (TerraformConfig.toDict
      { provider := provider, region := region, profile := some p,
        project_id := some pj, workspace_dir := some wd }) =
      some { provider := provider, region := region, profile := some p,
             project_id := some pj, workspace_dir := some wd } := by
  cases provider <;>
    simp [TerraformConfig.toDict, TerraformConfig.fromDict, optTruthy,
      CloudProvider.value, hp, hpj, hwd]

/-- C9 witness: the amended round-trip at a concrete fully-set config. -/
theorem config_roundtrip_truthy_fields_witness :
    ("default" : String) ≠ "" ∧ ("proj" : String) ≠ "" ∧ ("/ws" : String) ≠ "" ∧
    TerraformConfig.fromDict (TerraformConfig.toDict
      { provider := .gcp, region := "europe-west1", profile := some ("default"),
        project_id := some ("proj"), workspace_dir := some ("/ws") }) =
      some { provider := .gcp, region := "europe-west1", profile := some ("default"),
             project_id := some ("proj"), workspace_dir := some ("/ws") } :=
  ⟨by decide, by decide, by decide,
   config_roundtrip_truthy_fields .gcp ("europe-west1") ("default") ("proj") ("/ws")
     (by decide) (by decide) (by decide)⟩

/-- C10: every `TerraformResult` has a populated `data` dict immediately
after construction (an absent `data` argument becomes the empty map),
and `get_resources` / `get_destroyed_resources` return the stored list
or the empty list when their key is absent — never an error. -/
theorem result_data_always_initialized
    (success : Bool) (message stdout stderr : String) (returncode : Int)
    (dataArg : Option TFData) (errArg : Option String) :
    (mkTerraformResult success message stdout stderr returncode dataArg
      errArg).data.isSome = true ∧
    (mkTerraformResult success message stdout stderr returncode dataArg
      errArg).getResources =
      .ok ((dataArg.getD emptyTFData).resources.getD []) ∧
    (mkTerraformResult success message stdout stderr returncode dataArg
      errArg).getDestroyedResources =
      .ok ((dataArg.getD emptyTFData).destroyed_resources.getD []) ∧
    (mkTerraformResult success message stdout stderr returncode none
      errArg).getResources = .ok [] ∧
    (mkTerraformResult success message stdout stderr returncode none
      errArg).getDestroyedResources = .ok [] :=
  ⟨rfl, rfl, rfl, rfl, rfl⟩

/-- C4 counterexample: a valid workspace whose backend file differs from
the freshly generated expected content only by a trailing newline —
textually different — yet `_needs_full_initialization` returns false,
because the comparison strips surrounding whitespace first. -/
theorem needs_full_init_whitespace_counterexample :
    workspaceExistsAndValid exWsTrailing = true ∧
    generateBackendTf exCfg = .ok exExpected ∧
    exWsTrailing.backendFile = some (exExpected ++ "\n") ∧
    exExpected ++ "\n" ≠ exExpected ∧
    needsFullInitialization exWsTrailing (some exCfg) = false := by
  refine ⟨by decide, rfl, rfl, by decide, by decide⟩

/-- C4 (amended): for a valid workspace with an expected (generatable)
backend configuration and readable backend file, full initialization
is needed exactly when the backend file is absent or its content
differs from the freshly generated expected content after stripping
leading and trailing whitespace from each; it is not needed when the
stripped contents match. -/
theorem needs_full_init_backend_comparison
    (ws : Workspace) (d : BackendDict) (b r : String)
    (hvalid : workspaceExistsAndValid ws = true)
    (hb : d.bucket = some b) (hr : d.region = some r)
    (hread : ws.backendFileReadFails = false) :
    (ws.backendFile = none → needsFullInitialization ws (some d) = true) ∧
    (∀ content expected, ws.backendFile = some content →
      generateBackendTf d = .ok expected →
      (needsFullInitialization ws (some d) = true ↔
        pyStrip content ≠ pyStrip expected)) := by
  have hne : d.isEmptyDict = false := by
    simp [BackendDict.isEmptyDict, hb]
  constructor
  · intro hnone
    simp [needsFullInitialization, hvalid, backendConfigChanged, hne, hnone,
      terraformFilesStale]
  · intro content expected hcontent hexp
    simp [needsFullInitialization, hvalid, backendConfigChanged, hne, hcontent,
      hread, hexp, terraformFilesStale]

/-- C4 witness: the amended statement at a concrete matching workspace:
the stripped contents match and no full initialization is needed. -/
theorem needs_full_init_backend_comparison_witness :
    workspaceExistsAndValid exWsMatching = true ∧
    exCfg.bucket = some ("bucket-a") ∧
    exCfg.region = some ("us-east-1") ∧
    exWsMatching.backendFileReadFails = false ∧
    exWsMatching.backendFile = some exExpected ∧
    generateBackendTf exCfg = .ok exExpected ∧
    (needsFullInitialization exWsMatching (some exCfg) = true ↔
      pyStrip exExpected ≠ pyStrip exExpected) :=
  ⟨by decide, rfl, rfl, rfl, rfl, rfl,
   (needs_full_init_backend_comparison exWsMatching exCfg ("bucket-a")
       ("us-east-1") (by decide) rfl rfl rfl).2 exExpected exExpected rfl rfl⟩

/-- C5: in a `_bootstrap_aws` run where the probe finds both the state
bucket and the lock table existing, no apply of the `backend` layer is
issued, while the apply of the `iam` layer is still issued
unconditionally. -/
theorem bootstrap_skips_backend_apply_when_exists
    (env : BootstrapEnv)
    (hs : env.sessionRaises = none)
    (hb : env.bucketExists = true) (ht : env.tableExists = true) :
    TfEvent.applyLayer TfLayer.awsBackend ∉ (bootstrapAws env).2 ∧
    TfEvent.applyLayer TfLayer.awsIam ∈ (bootstrapAws env).2 := by
  have hbe : awsBackendExists env = true := by
    simp [awsBackendExists, hb, ht]
  cases hi : env.iamApply with
  | raised m =>
    simp [bootstrapAws, hs, hbe, hi, importExistingIamRole]
  | returns r =>
    by_cases hrs : r.success = true <;>
      simp [bootstrapAws, hs, hbe, hi, hrs, importExistingIamRole]

/-- C5 witness: the concrete environment where bucket and table already
exist. -/
theorem bootstrap_skips_backend_apply_when_exists_witness :
    exBootstrapRoleExists.sessionRaises = none ∧
    exBootstrapRoleExists.bucketExists = true ∧
    exBootstrapRoleExists.tableExists = true ∧
    (TfEvent.applyLayer TfLayer.awsBackend ∉ (bootstrapAws exBootstrapRoleExists).2 ∧
     TfEvent.applyLayer TfLayer.awsIam ∈ (bootstrapAws exBootstrapRoleExists).2) :=
  ⟨rfl, rfl, rfl,
   bootstrap_skips_backend_apply_when_exists exBootstrapRoleExists rfl rfl rfl⟩

/-- C6: when the `iam` layer destroy does not succeed (failure result or
raised exception), `_destroy_aws` still attempts the `backend` layer
destroy, and the destroyed-resources list of the final result contains
exactly the addresses reported by the layer destroys that succeeded. -/
theorem destroy_continues_after_iam_failure
    (env : DestroyEnv)
    (hs : env.sessionRaises = none)
    (hiam : env.iamDestroy.isSucceeded = false) :
    TfEvent.destroyLayer TfLayer.awsBackend ∈ (destroyAws env).2 ∧
    (destroyAws env).1.getDestroyedResources =
      .ok env.backendDestroy.reported := by
  cases hi : env.iamDestroy with
  | succeeded rs =>
    rw [hi] at hiam
    simp [DestroyLayerOutcome.isSucceeded] at hiam
  | failed st =>
    cases hb : env.backendDestroy <;>
      simp [destroyAws, hs, hi, hb, DestroyLayerOutcome.reported,
        destroyAwsSuccessResult, TerraformResult.getDestroyedResources,
        mkTerraformResult, emptyTFData]
  | raised m =>
    cases hb : env.backendDestroy <;>
      simp [destroyAws, hs, hi, hb, DestroyLayerOutcome.reported,
        destroyAwsSuccessResult, TerraformResult.getDestroyedResources,
        mkTerraformResult, emptyTFData]

/-- C6 witness: the `iam` destroy raises, the `backend` destroy succeeds
with one address; the final list holds exactly that address. -/
theorem destroy_continues_after_iam_failure_witness :
    ({ region := "us-east-1", accountId := "123456789012",
       iamDestroy := .raised ("init failed"),
       backendDestroy := .succeeded ["aws_s3_bucket.terraform_state"] } :
        DestroyEnv).sessionRaises = none ∧
    ({ region := "us-east-1", accountId := "123456789012",
       iamDestroy := .raised ("init failed"),
       backendDestroy := .succeeded ["aws_s3_bucket.terraform_state"] } :
        DestroyEnv).iamDestroy.isSucceeded = false ∧
    (TfEvent.destroyLayer TfLayer.awsBackend ∈
      (destroyAws
        { region := "us-east-1", accountId := "123456789012",
          iamDestroy := .raised ("init failed"),
          backendDestroy := .succeeded ["aws_s3_bucket.terraform_state"] }).2 ∧
     (destroyAws
        { region := "us-east-1", accountId := "123456789012",
          iamDestroy := .raised ("init failed"),
          backendDestroy := .succeeded ["aws_s3_bucket.terraform_state"] }).1.getDestroyedResources =
       .ok (DestroyLayerOutcome.succeeded
         ["aws_s3_bucket.terraform_state"]).reported) :=
  ⟨rfl, rfl,
   destroy_continues_after_iam_failure
     { region := "us-east-1", accountId := "123456789012",
       iamDestroy := .raised ("init failed"),
       backendDestroy := .succeeded ["aws_s3_bucket.terraform_state"] }
     rfl rfl⟩

/-- C2 counterexample: a destroy run in which the `backend` layer destroy
reports failure (without raising) still returns the unified result
with `success=true`, a success message, and no error detail — the
claimed `success=false` surfacing does not happen. -/
theorem destroy_backend_failure_reports_success :
    exDestroyBackendFails.backendDestroy = .failed ("Error: deleting S3 bucket") ∧
    (destroyAws exDestroyBackendFails).1.success = true ∧
    (destroyAws exDestroyBackendFails).1.error = none ∧
    (destroyAws exDestroyBackendFails).1.message =
      "AWS infrastructure destroyed successfully" := by
  refine ⟨rfl, ?_, ?_, ?_⟩ <;> decide

/-- C2 (amended): a destroy call returns a failure result exactly when an
exception escapes a step (identity resolution raising, or the
`backend` layer destroy raising); such a failure result carries the
message built from the raw detail and the raw detail in `error`.  A
`backend` layer destroy that merely reports failure does not fail the
call. -/
theorem destroy_failure_surfacing (env : DestroyEnv) :
    (destroyAws env).1.success =
      (!(env.sessionRaises.isSome || env.backendDestroy.isRaised)) ∧
    (destroyAws env).1.error.isSome =
      (env.sessionRaises.isSome || env.backendDestroy.isRaised) ∧
    ((destroyAws env).1.message = "AWS infrastructure destroyed successfully" ∨
     ∃ e, (destroyAws env).1.message = "Destroy failed: " ++ e ∧
       (destroyAws env).1.error = some e) := by
  cases hs : env.sessionRaises with
  | some e =>
    refine ⟨?_, ?_, Or.inr ⟨e, ?_, ?_⟩⟩ <;>
      simp [destroyAws, hs, mkTerraformResult]
  | none =>
    cases hb : env.backendDestroy with
    | raised e =>
      refine ⟨?_, ?_, Or.inr ⟨e, ?_, ?_⟩⟩ <;>
        simp [destroyAws, hs, hb, DestroyLayerOutcome.isRaised, mkTerraformResult]
    | failed st =>
      refine ⟨?_, ?_, Or.inl ?_⟩ <;>
        simp [destroyAws, hs, hb, DestroyLayerOutcome.isRaised,
          destroyAwsSuccessResult, mkTerraformResult]
    | succeeded rs =>
      refine ⟨?_, ?_, Or.inl ?_⟩ <;>
        simp [destroyAws, hs, hb, DestroyLayerOutcome.isRaised,
          destroyAwsSuccessResult, mkTerraformResult]

/-- C1: evaluation at the failing input.  In the environment where the
IAM role of the fixed name exists in the cloud (and the backend
already exists), `_bootstrap_aws` issues no import at all — its
`_import_existing_iam_role` helper only probes the role — and applies
the `iam` layer directly, while the legacy
`bootstrap_aws_infrastructure` (whose behaviour the claim and the
helper's own docstring describe) imports the role by its address
before the `iam` apply when its address is absent from the state. -/
theorem bootstrap_iam_import_divergence :
    exBootstrapRoleExists.roleExists = true ∧
    ((bootstrapAws exBootstrapRoleExists).2.all
      (fun e => !e.isResourceImport)) = true ∧
    (bootstrapAws exBootstrapRoleExists).2 =
      [TfEvent.checkRole ("constellaxion-admin"),
       TfEvent.applyLayer TfLayer.awsIam] ∧
    legacyBootstrapEvents exLegacyRoleExists =
      [TfEvent.initLayer TfLayer.awsIam,
       TfEvent.resourceImport ("aws_iam_role.constellaxion_admin")
         ("constellaxion-admin"),
       TfEvent.applyLayer TfLayer.awsIam] := by
  refine ⟨rfl, ?_, ?_, ?_⟩ <;> decide

/-- C7: for every `apply_layer` / `destroy_layer` call, once the
transient `terraform.tfvars.json` has been written the guaranteed
cleanup deletes it before the call returns or raises; a call that
raises before writing leaves the previous file state untouched.
Equivalently, the file exists afterwards only if it existed before and
was never written. -/
theorem vars_file_always_deleted
    (aenv : ApplyEnv) (denv : DestroyLayerCallEnv) (before1 before2 : Bool) :
    (applyLayerRun aenv before1).varsExistsAfter =
      (!(applyLayerRun aenv before1).varsWritten && before1) ∧
    (destroyLayerRun denv before2).varsExistsAfter =
      (!(destroyLayerRun denv before2).varsWritten && before2) := by
  constructor
  · cases hp : aenv.prepRaises with
    | some m => simp [applyLayerRun, hp]
    | none =>
      cases ha : aenv.applyCall with
      | raised m => simp [applyLayerRun, hp, ha]
      | returns ar =>
        by_cases hrs : ar.success = true
        · cases ho : aenv.outputCall <;>
            simp [applyLayerRun, hp, ha, ho, hrs]
        · simp [applyLayerRun, hp, ha, hrs]
  · cases hp : denv.prepRaises with
    | some m => simp [destroyLayerRun, hp]
    | none =>
      cases hsl : denv.stateListCall with
      | raised m => simp [destroyLayerRun, hp, hsl]
      | returns sr =>
        cases hd : denv.destroyCall with
        | raised m => simp [destroyLayerRun, hp, hsl, hd]
        | returns dr =>
          by_cases hds : dr.success = true <;>
            simp [destroyLayerRun, hp, hsl, hd, hds]

/-- C8: when the apply command succeeds but the subsequent
`output -json` stdout is non-empty yet cannot be parsed as JSON
(`json.loads` raises), `apply_layer` still returns success with an
empty outputs map. -/
theorem apply_output_parse_failure_nonfatal
    (layer : TfLayer) (ar orr : TerraformResult) (before : Bool)
    (hara : ar.success = true) (hos : orr.success = true)
    (hns : pyStrip orr.stdout ≠ "") :
    (applyLayerRun
      { layer := layer, prepRaises := none, applyCall := .returns ar,
        outputCall := .returns orr, outputParsed := none } before).outcome =
      .ok (mkTerraformResult true ("Successfully applied " ++ layer.value)
        "" "" 0 (some { outputs := some [] })) := by
  simp [applyLayerRun, hara, hos, hns]

/-- C8 witness: a successful apply whose `output -json` stdout is the
unparseable text `"not valid json"`. -/
theorem apply_output_parse_failure_nonfatal_witness :
    (mkTerraformResult true ("Command executed")).success = true ∧
    (mkTerraformResult true ("Command executed") ("not valid json")).success = true ∧
    pyStrip (mkTerraformResult true ("Command executed") ("not valid json")).stdout ≠ "" ∧
    (applyLayerRun
      { layer := .awsIam, prepRaises := none,
        applyCall := .returns (mkTerraformResult true ("Command executed")),
        outputCall := .returns (mkTerraformResult true ("Command executed")
          ("not valid json")),
        outputParsed := none } false).outcome =
      .ok (mkTerraformResult true ("Successfully applied " ++ TfLayer.awsIam.value)
        "" "" 0 (some { outputs := some [] })) :=
  ⟨rfl, rfl, by decide,
   apply_output_parse_failure_nonfatal .awsIam
     (mkTerraformResult true ("Command executed"))
     (mkTerraformResult true ("Command executed") ("not valid json"))
     false rfl rfl (by decide)⟩
